import Mathlib

/-!
Verification of the fastboot SPI-flash (MTD) backend
(`drivers/fastboot/fb_spi_flash.c`).

The external MTD subsystem (device probing, name lookup, erase/program
primitives) and the payload inspection are abstracted into an environment
`Env` of oracles.  Each public operation is embedded as a function from the
environment (and its arguments) to a trace of observable events: external
calls (`probe`, `lookup`, `put`, `eraseOp`, `writeOp`) and protocol
responses (`failResp`, `okayResp`), in the order the C code performs them.

Machine integers are modelled as `Nat`; the one place where a C narrowing
conversion matters (`u32 offset = blk * info->blksz` in
`fb_mtd_sparse_write`) carries an explicit `% 2^32`.
-/

/-- `struct mtd_info`: the fields this driver reads.  `size` is `u64`,
`writesize` and `erasesize` are `u32`. -/
structure mtd_info where
  name : String
  size : Nat
  writesize : Nat
  erasesize : Nat
deriving DecidableEq, Repr

/-- `struct disk_partition`: the fields `fastboot_spi_flash_get_part_info`
populates. -/
structure disk_partition where
  start : Nat
  size : Nat
  blksz : Nat
  name : String
deriving DecidableEq, Repr

/-- `struct sparse_storage`: the numeric fields the driver fills in before
handing control to `write_sparse_image` (the callbacks are modelled
directly). -/
structure sparse_storage where
  blksz : Nat
  start : Nat
  size : Nat
deriving DecidableEq, Repr

/-- Observable events of one operation, in program order: calls into the
MTD subsystem and protocol responses. -/
inductive Event where
  | probe
  | lookup (name : Option String)
  | put
  | eraseOp (addr len : Nat)
  | writeOp (offset len : Nat)
  | failResp (msg : String)
  | okayResp
deriving DecidableEq, Repr

/-- Oracles for the external collaborators: results of the first and
second `get_mtd_device_nm` calls, the return codes of `mtd_erase` and
`mtd_write` as functions of their address arguments, the verdict of
`is_sparse_image` on the download buffer, and the chunk requests
(`blk`, `blkcnt`) the sparse-image driver issues for that buffer. -/
structure Env where
  lookupFst : Except Int mtd_info
  lookupSnd : Except Int mtd_info
  eraseRet : Nat → Nat → Int
  writeRet : Nat → Nat → Int
  sparse : Bool
  chunks : List (Nat × Nat)

/-- `-ENODEV` (`linux/errno.h`: `ENODEV = 19`). -/
def ENODEV_NEG : Int := -19

/-- `-ENOENT` (`linux/errno.h`: `ENOENT = 2`). -/
def ENOENT_NEG : Int := -2

/-- `get_mtd_device_by_name`: probe, look up; on `-ENODEV` probe and look
up once more; any other error (or a second failure) is terminal.  Returns
the C function's outcome (`.ok mtd` for return 0, `.error ret` for a
negative return) together with the event trace. -/
def get_mtd_device_by_name (env : Env) (name : Option String) :
    Except Int mtd_info × List Event :=
  let tr0 : List Event := [.probe, .lookup name]
  match env.lookupFst with
  | .ok mtd => (.ok mtd, tr0)
  | .error ret =>
    if ret = ENODEV_NEG then
      match env.lookupSnd with
      | .ok mtd => (.ok mtd, tr0 ++ [.probe, .lookup name])
      | .error ret2 => (.error ret2, tr0 ++ [.probe, .lookup name])
    else
      (.error ret, tr0)

/-- Whether the resolver succeeds in environment `env` (independent of the
looked-up name). -/
def resolveOk (env : Env) : Bool :=
  match (get_mtd_device_by_name env none).1 with
  | .ok _ => true
  | .error _ => false

/-- `fastboot_spi_flash_get_part_info`: guard against a missing or empty
name, resolve, populate the descriptor, release.  Returns the C return
value, the descriptor written through `part_info` (if any), and the event
trace.  `PART_NAME_LEN = 32` bounds the `strncpy`. -/
def fastboot_spi_flash_get_part_info (env : Env) (part_name : Option String) :
    Int × Option disk_partition × List Event :=
  if part_name = none ∨ part_name = some "" then
    (ENOENT_NEG, none, [.failResp "partition not given"])
  else
    match get_mtd_device_by_name env part_name with
    | (.error ret, tr) => (ret, none, tr ++ [.failResp "partition not found"])
    | (.ok mtd, tr) =>
      (0, some ⟨0, mtd.size, mtd.writesize, mtd.name.take 32⟩, tr ++ [.put])

/-- `fastboot_spi_flash_erase`: resolve, erase the whole region
`{0, mtd->size}`, release, then report. -/
def fastboot_spi_flash_erase (env : Env) (cmd : Option String) : List Event :=
  match get_mtd_device_by_name env cmd with
  | (.error _, tr) => tr ++ [.failResp "partition not found"]
  | (.ok mtd, tr) =>
    tr ++ [.eraseOp 0 mtd.size, .put] ++
      (if env.eraseRet 0 mtd.size ≠ 0 then [.failResp "failed erasing mtd device"]
       else [.okayResp])

/-- The erase-length computation of the raw-write path
(`fb_spi_flash.c:205-215`): start from `download_bytes`, round up to a
multiple of `mtd->erasesize` when not already aligned, then clamp to
`mtd->size`.  All arithmetic is performed in `u64` (`instr.len`) and never
wraps for `u32` inputs, so `Nat` is exact. -/
def rawEraseLen (erasesize size download_bytes : Nat) : Nat :=
  let len := download_bytes
  let len := if len % erasesize ≠ 0 then (len / erasesize + 1) * erasesize else len
  if len > size then size else len

/-- `fb_mtd_sparse_write`: program `blkcnt * info->blksz` bytes at
`blk * info->blksz`; the C code stores the offset in a `u32`, hence the
`% 2^32`.  Returns `0` on `mtd_write` failure and `blkcnt` on success,
together with the issued call. -/
def fb_mtd_sparse_write (env : Env) (info : sparse_storage)
    (blk blkcnt : Nat) : Nat × List Event :=
  let len := blkcnt * info.blksz
  let offset := (blk * info.blksz) % 2 ^ 32
  if env.writeRet offset len ≠ 0 then (0, [.writeOp offset len])
  else (blkcnt, [.writeOp offset len])

/-- Modelled from the spec: `write_sparse_image` (the sparse-image driver,
an external collaborator not present in the source tree) parses the payload
into chunk requests and drives the `write` callback for each in order; a
callback return of `0` (zero chunks committed) is treated as a hard abort
of the whole transfer, with the driver formatting its own failure response;
if every chunk succeeds it reports success. -/
def write_sparse_image (env : Env) (info : sparse_storage) :
    List (Nat × Nat) → List Event
  | [] => [.okayResp]
  | (blk, blkcnt) :: rest =>
    let res := fb_mtd_sparse_write env info blk blkcnt
    if res.1 = 0 then res.2 ++ [.failResp "sparse write failed"]
    else res.2 ++ write_sparse_image env info rest

/-- The `sparse_storage` record `fastboot_spi_flash_write` builds
(`fb_spi_flash.c:181-183`). -/
def sparseStorageOf (mtd : mtd_info) : sparse_storage :=
  ⟨mtd.writesize, 0, mtd.size / mtd.writesize⟩

/-- `fastboot_spi_flash_write`: resolve, dispatch on `is_sparse_image`;
sparse images go through the sparse driver, raw images are erased
(aligned, clamped) then programmed in full at offset 0.  Release on every
path past a successful resolve. -/
def fastboot_spi_flash_write (env : Env) (cmd : Option String)
    (download_bytes : Nat) : List Event :=
  match get_mtd_device_by_name env cmd with
  | (.error _, tr) => tr ++ [.failResp "partition not found"]
  | (.ok mtd, tr) =>
    if env.sparse then
      tr ++ write_sparse_image env (sparseStorageOf mtd) env.chunks ++ [.put]
    else
      let elen := rawEraseLen mtd.erasesize mtd.size download_bytes
      if env.eraseRet 0 elen ≠ 0 then
        tr ++ [.eraseOp 0 elen, .failResp "erase failed", .put]
      else if env.writeRet 0 download_bytes ≠ 0 then
        tr ++ [.eraseOp 0 elen, .writeOp 0 download_bytes,
               .failResp "write failed", .put]
      else
        tr ++ [.eraseOp 0 elen, .writeOp 0 download_bytes, .okayResp, .put]

/-- Number of `put_mtd_device` calls in a trace. -/
def putCount : List Event → Nat
  | [] => 0
  | .put :: tr => putCount tr + 1
  | _ :: tr => putCount tr

/-! ## Helper lemmas -/

lemma putCount_nil : putCount [] = 0 := rfl

lemma putCount_append (a b : List Event) :
    putCount (a ++ b) = putCount a + putCount b := by
  induction a with
  | nil => simp [putCount]
  | cons e tr ih =>
    cases e <;> simp [putCount, ih]
    omega

lemma resolver_trace_shape (env : Env) (name : Option String) :
    (get_mtd_device_by_name env name).2 = [.probe, .lookup name] ∨
    (get_mtd_device_by_name env name).2 =
      [.probe, .lookup name, .probe, .lookup name] := by
  unfold get_mtd_device_by_name
  cases env.lookupFst with
  | ok mtd => exact Or.inl rfl
  | error ret =>
    by_cases hr : ret = ENODEV_NEG
    · cases env.lookupSnd with
      | ok mtd => simp [hr]
      | error r2 => simp [hr]
    · simp [hr]

lemma resolver_trace_no_put (env : Env) (name : Option String) :
    putCount (get_mtd_device_by_name env name).2 = 0 := by
  rcases resolver_trace_shape env name with h | h <;> simp [h, putCount]

lemma resolver_dichotomy (env : Env) (name : Option String) :
    (resolveOk env = true ∧ ∃ mtd, (get_mtd_device_by_name env name).1 = .ok mtd) ∨
    (resolveOk env = false ∧ ∃ ret, (get_mtd_device_by_name env name).1 = .error ret) := by
  unfold resolveOk get_mtd_device_by_name
  cases env.lookupFst with
  | ok mtd => exact Or.inl ⟨rfl, mtd, rfl⟩
  | error ret =>
    by_cases hr : ret = ENODEV_NEG
    · cases hs : env.lookupSnd with
      | ok mtd => left; refine ⟨?_, mtd, ?_⟩ <;> simp [hr, hs]
      | error r2 => right; refine ⟨?_, r2, ?_⟩ <;> simp [hr, hs]
    · right; refine ⟨?_, ret, ?_⟩ <;> simp [hr]

lemma sparse_trace_no_put (env : Env) (info : sparse_storage)
    (chunks : List (Nat × Nat)) :
    putCount (write_sparse_image env info chunks) = 0 := by
  induction chunks with
  | nil => rfl
  | cons c rest ih =>
    obtain ⟨blk, blkcnt⟩ := c
    unfold write_sparse_image fb_mtd_sparse_write
    by_cases hw : env.writeRet (blk * info.blksz % 4294967296) (blkcnt * info.blksz) = 0 <;>
      by_cases hb : blkcnt = 0 <;>
      simp [hw, hb, putCount_append, putCount, ih]

lemma resolver_pair_ok (env : Env) (name : Option String) (mtd : mtd_info)
    (h : (get_mtd_device_by_name env name).1 = .ok mtd) :
    get_mtd_device_by_name env name =
      (.ok mtd, (get_mtd_device_by_name env name).2) := by
  rw [← h]

lemma resolver_pair_err (env : Env) (name : Option String) (ret : Int)
    (h : (get_mtd_device_by_name env name).1 = .error ret) :
    get_mtd_device_by_name env name =
      (.error ret, (get_mtd_device_by_name env name).2) := by
  rw [← h]

lemma erase_eq_ok (env : Env) (name : Option String) (mtd : mtd_info)
    (h : (get_mtd_device_by_name env name).1 = .ok mtd) :
    fastboot_spi_flash_erase env name =
      (get_mtd_device_by_name env name).2 ++ [.eraseOp 0 mtd.size, .put] ++
        (if env.eraseRet 0 mtd.size ≠ 0 then [.failResp "failed erasing mtd device"]
         else [.okayResp]) := by
  unfold fastboot_spi_flash_erase
  rw [resolver_pair_ok env name mtd h]

lemma erase_eq_err (env : Env) (name : Option String) (ret : Int)
    (h : (get_mtd_device_by_name env name).1 = .error ret) :
    fastboot_spi_flash_erase env name =
      (get_mtd_device_by_name env name).2 ++ [.failResp "partition not found"] := by
  unfold fastboot_spi_flash_erase
  rw [resolver_pair_err env name ret h]

lemma write_eq_err (env : Env) (name : Option String) (L : Nat) (ret : Int)
    (h : (get_mtd_device_by_name env name).1 = .error ret) :
    fastboot_spi_flash_write env name L =
      (get_mtd_device_by_name env name).2 ++ [.failResp "partition not found"] := by
  unfold fastboot_spi_flash_write
  rw [resolver_pair_err env name ret h]

lemma write_eq_ok_sparse (env : Env) (name : Option String) (L : Nat)
    (mtd : mtd_info)
    (h : (get_mtd_device_by_name env name).1 = .ok mtd)
    (hsp : env.sparse = true) :
    fastboot_spi_flash_write env name L =
      (get_mtd_device_by_name env name).2 ++
        write_sparse_image env (sparseStorageOf mtd) env.chunks ++ [.put] := by
  unfold fastboot_spi_flash_write
  rw [resolver_pair_ok env name mtd h]
  simp [hsp]

lemma write_eq_raw_erasefail (env : Env) (name : Option String) (L : Nat)
    (mtd : mtd_info)
    (h : (get_mtd_device_by_name env name).1 = .ok mtd)
    (hsp : env.sparse = false)
    (he : env.eraseRet 0 (rawEraseLen mtd.erasesize mtd.size L) ≠ 0) :
    fastboot_spi_flash_write env name L =
      (get_mtd_device_by_name env name).2 ++
        [.eraseOp 0 (rawEraseLen mtd.erasesize mtd.size L),
         .failResp "erase failed", .put] := by
  unfold fastboot_spi_flash_write
  rw [resolver_pair_ok env name mtd h]
  simp [hsp, he]

lemma write_eq_raw_writefail (env : Env) (name : Option String) (L : Nat)
    (mtd : mtd_info)
    (h : (get_mtd_device_by_name env name).1 = .ok mtd)
    (hsp : env.sparse = false)
    (he : env.eraseRet 0 (rawEraseLen mtd.erasesize mtd.size L) = 0)
    (hw : env.writeRet 0 L ≠ 0) :
    fastboot_spi_flash_write env name L =
      (get_mtd_device_by_name env name).2 ++
        [.eraseOp 0 (rawEraseLen mtd.erasesize mtd.size L),
         .writeOp 0 L, .failResp "write failed", .put] := by
  unfold fastboot_spi_flash_write
  rw [resolver_pair_ok env name mtd h]
  simp [hsp, he, hw]

lemma write_eq_raw_success (env : Env) (name : Option String) (L : Nat)
    (mtd : mtd_info)
    (h : (get_mtd_device_by_name env name).1 = .ok mtd)
    (hsp : env.sparse = false)
    (he : env.eraseRet 0 (rawEraseLen mtd.erasesize mtd.size L) = 0)
    (hw : env.writeRet 0 L = 0) :
    fastboot_spi_flash_write env name L =
      (get_mtd_device_by_name env name).2 ++
        [.eraseOp 0 (rawEraseLen mtd.erasesize mtd.size L),
         .writeOp 0 L, .okayResp, .put] := by
  unfold fastboot_spi_flash_write
  rw [resolver_pair_ok env name mtd h]
  simp [hsp, he, hw]

lemma get_part_info_eq_ok (env : Env) (name : Option String) (mtd : mtd_info)
    (hname : ¬(name = none ∨ name = some ""))
    (h : (get_mtd_device_by_name env name).1 = .ok mtd) :
    fastboot_spi_flash_get_part_info env name =
      (0, some ⟨0, mtd.size, mtd.writesize, mtd.name.take 32⟩,
       (get_mtd_device_by_name env name).2 ++ [.put]) := by
  unfold fastboot_spi_flash_get_part_info
  rw [if_neg hname, resolver_pair_ok env name mtd h]

lemma get_part_info_eq_err (env : Env) (name : Option String) (ret : Int)
    (hname : ¬(name = none ∨ name = some ""))
    (h : (get_mtd_device_by_name env name).1 = .error ret) :
    fastboot_spi_flash_get_part_info env name =
      (ret, none,
       (get_mtd_device_by_name env name).2 ++ [.failResp "partition not found"]) := by
  unfold fastboot_spi_flash_get_part_info
  rw [if_neg hname, resolver_pair_err env name ret h]

lemma ceil_div_mul (E L : Nat) (hE : 0 < E) :
    (L + E - 1) / E * E = if L % E = 0 then L else (L / E + 1) * E := by
  obtain ⟨q, r, hrE, hL⟩ : ∃ q r, r < E ∧ E * q + r = L :=
    ⟨L / E, L % E, Nat.mod_lt _ hE, Nat.div_add_mod L E⟩
  subst hL
  have hr0 : r / E = 0 := Nat.div_eq_of_lt hrE
  have hmod : (E * q + r) % E = r := by
    rw [Nat.mul_add_mod, Nat.mod_eq_of_lt hrE]
  have hsplit : E * q + r + E - 1 = E * q + (r + E - 1) := by omega
  rw [hmod, hsplit, Nat.mul_add_div hE, Nat.mul_add_div hE, hr0]
  by_cases h0 : r = 0
  · have h1 : (r + E - 1) / E = 0 := Nat.div_eq_of_lt (by omega)
    rw [if_pos h0, h1, h0]
    ring
  · have h1 : (r + E - 1) / E = 1 := by
      have hrw : r + E - 1 = E + (r - 1) := by omega
      rw [hrw, Nat.add_div_left _ hE, Nat.div_eq_of_lt (by omega)]
    rw [if_neg h0, h1]

/-! ## Claims -/

/-- C2: for a raw write of length `L` on a region with erase granularity
`E` and total size `S`, the computed erase length is
`min(S, ceil(L / E) * E)`: `L` rounded up to the next multiple of `E` when
not already a multiple, then clamped to `S`. -/
theorem raw_erase_len_spec (E S L : Nat) (hE : 0 < E) :
    rawEraseLen E S L = min S ((L + E - 1) / E * E) := by
  rw [ceil_div_mul E L hE]
  unfold rawEraseLen
  by_cases h0 : L % E = 0 <;> simp only [h0, ne_eq, not_true_eq_false,
    not_false_eq_true, if_true, if_false, ite_true, ite_false] <;>
    split <;> omega

/-- Witness for C2 at the spec's own example:
`E = 128 KiB, S = 4 MiB, L = 200 KiB` gives erase length `256 KiB`. -/
theorem raw_erase_len_spec_witness :
    0 < 131072 ∧
    rawEraseLen 131072 4194304 204800 =
      min 4194304 ((204800 + 131072 - 1) / 131072 * 131072) :=
  ⟨by decide, raw_erase_len_spec 131072 4194304 204800 (by decide)⟩

/-- C9: `get_part_info` with a missing or empty partition name fails with
"partition not given" (returning `-ENOENT`, no descriptor) and its trace
contains no device enumeration and no lookup. -/
theorem get_part_info_empty_name (env : Env) :
    fastboot_spi_flash_get_part_info env none =
      (ENOENT_NEG, none, [.failResp "partition not given"]) ∧
    fastboot_spi_flash_get_part_info env (some "") =
      (ENOENT_NEG, none, [.failResp "partition not given"]) ∧
    Event.probe ∉ (fastboot_spi_flash_get_part_info env none).2.2 ∧
    Event.probe ∉ (fastboot_spi_flash_get_part_info env (some "")).2.2 := by
  refine ⟨rfl, rfl, ?_, ?_⟩ <;> simp [fastboot_spi_flash_get_part_info]

/-- C1: across every execution path of the three public operations, the
device handle is released exactly once when the resolver succeeded and
zero times otherwise (for `get_part_info` the empty-name guard path also
releases zero times, the resolver never having run). -/
theorem handle_release_discipline (env : Env) (name : Option String) (L : Nat) :
    putCount (fastboot_spi_flash_erase env name) =
      (if resolveOk env then 1 else 0) ∧
    putCount (fastboot_spi_flash_write env name L) =
      (if resolveOk env then 1 else 0) ∧
    putCount (fastboot_spi_flash_get_part_info env name).2.2 =
      (if name = none ∨ name = some "" then 0
       else if resolveOk env then 1 else 0) := by
  rcases resolver_dichotomy env name with ⟨hok, mtd, h⟩ | ⟨hbad, ret, h⟩
  · refine ⟨?_, ?_, ?_⟩
    · rw [erase_eq_ok env name mtd h, hok, putCount_append, putCount_append,
        resolver_trace_no_put]
      split <;> rfl
    · rw [hok]
      by_cases hsp : env.sparse
      · rw [write_eq_ok_sparse env name L mtd h hsp, putCount_append,
          putCount_append, resolver_trace_no_put, sparse_trace_no_put]
        rfl
      · rw [Bool.not_eq_true] at hsp
        by_cases he : env.eraseRet 0 (rawEraseLen mtd.erasesize mtd.size L) = 0
        · by_cases hw : env.writeRet 0 L = 0
          · rw [write_eq_raw_success env name L mtd h hsp he hw,
              putCount_append, resolver_trace_no_put]
            rfl
          · rw [write_eq_raw_writefail env name L mtd h hsp he hw,
              putCount_append, resolver_trace_no_put]
            rfl
        · rw [write_eq_raw_erasefail env name L mtd h hsp he,
            putCount_append, resolver_trace_no_put]
          rfl
    · by_cases hname : name = none ∨ name = some ""
      · simp [fastboot_spi_flash_get_part_info, hname, putCount]
      · rw [get_part_info_eq_ok env name mtd hname h, hok, if_neg hname]
        simp [putCount_append, resolver_trace_no_put, putCount]
  · refine ⟨?_, ?_, ?_⟩
    · rw [erase_eq_err env name ret h, hbad, putCount_append,
        resolver_trace_no_put]
      rfl
    · rw [write_eq_err env name L ret h, hbad, putCount_append,
        resolver_trace_no_put]
      rfl
    · by_cases hname : name = none ∨ name = some ""
      · simp [fastboot_spi_flash_get_part_info, hname, putCount]
      · rw [get_part_info_eq_err env name ret hname h, hbad, if_neg hname]
        simp [putCount_append, resolver_trace_no_put, putCount]

/-- C3: on a raw write whose pre-write erase fails, the operation emits
exactly the resolver calls, the failed erase, the "erase failed" response
and the single release — and in particular never issues a program
(`mtd_write`) call. -/
theorem raw_write_erase_failure_aborts (env : Env) (name : Option String)
    (L : Nat) (mtd : mtd_info)
    (hres : (get_mtd_device_by_name env name).1 = .ok mtd)
    (hsp : env.sparse = false)
    (he : env.eraseRet 0 (rawEraseLen mtd.erasesize mtd.size L) ≠ 0) :
    fastboot_spi_flash_write env name L =
      (get_mtd_device_by_name env name).2 ++
        [.eraseOp 0 (rawEraseLen mtd.erasesize mtd.size L),
         .failResp "erase failed", .put] ∧
    putCount (fastboot_spi_flash_write env name L) = 1 ∧
    ∀ o l, Event.writeOp o l ∉ fastboot_spi_flash_write env name L := by
  have heq := write_eq_raw_erasefail env name L mtd hres hsp he
  refine ⟨heq, ?_, ?_⟩
  · rw [heq, putCount_append, resolver_trace_no_put]
    rfl
  · intro o l
    rw [heq]
    rcases resolver_trace_shape env name with h2 | h2 <;> simp [h2]

/-- Witness for C3: a concrete environment whose erase primitive always
fails; the raw write stops after the failed erase with no program call. -/
def mtdW : mtd_info := ⟨"part", 4194304, 2048, 131072⟩

def envC3 : Env :=
  ⟨.ok mtdW, .error (-19), fun _ _ => -5, fun _ _ => 0, false, []⟩

theorem raw_write_erase_failure_aborts_witness :
    fastboot_spi_flash_write envC3 (some "part") 200 =
      [.probe, .lookup (some "part"), .eraseOp 0 131072,
       .failResp "erase failed", .put] ∧
    (∀ o l, Event.writeOp o l ∉ fastboot_spi_flash_write envC3 (some "part") 200) := by
  have h := raw_write_erase_failure_aborts envC3 (some "part") 200 mtdW
    (by rfl) (by rfl) (by decide)
  refine ⟨?_, h.2.2⟩
  rw [h.1]
  rfl

/-- C4: the resolver always probes and looks the name up once; exactly
when that first lookup fails with `-ENODEV` does it probe and look up a
second time, the second outcome (success or any error) being final; a
first-lookup error other than `-ENODEV` is returned immediately with no
retry. -/
theorem resolver_retry_once (env : Env) (name : Option String) :
    (∀ mtd, env.lookupFst = .ok mtd →
       get_mtd_device_by_name env name = (.ok mtd, [.probe, .lookup name])) ∧
    (∀ ret, env.lookupFst = .error ret → ret ≠ ENODEV_NEG →
       get_mtd_device_by_name env name = (.error ret, [.probe, .lookup name])) ∧
    (env.lookupFst = .error ENODEV_NEG →
       get_mtd_device_by_name env name =
         (env.lookupSnd, [.probe, .lookup name, .probe, .lookup name])) := by
  refine ⟨?_, ?_, ?_⟩
  · intro mtd hf
    unfold get_mtd_device_by_name
    rw [hf]
  · intro ret hf hne
    unfold get_mtd_device_by_name
    rw [hf]
    simp [hne]
  · intro hf
    unfold get_mtd_device_by_name
    rw [hf]
    cases hs : env.lookupSnd <;> simp [hs]

/-- Witness for C4: with a first lookup failing `-ENODEV` and a second
lookup also failing (`-2`), the resolver probes and looks up exactly
twice and returns the second error as terminal. -/
def envC4 : Env :=
  ⟨.error (-19), .error (-2), fun _ _ => 0, fun _ _ => 0, false, []⟩

theorem resolver_retry_once_witness :
    get_mtd_device_by_name envC4 (some "k") =
      (.error (-2), [.probe, .lookup (some "k"), .probe, .lookup (some "k")]) :=
  (resolver_retry_once envC4 (some "k")).2.2 rfl

/-- C5: for a chunk of positive size, the sparse write callback returns 0
iff the underlying `mtd_write` for that chunk fails, and returns the full
requested count on success; and a 0 return makes the (spec-modelled)
sparse driver abort the transfer: the remaining chunks are never
processed, whatever they are. -/
theorem sparse_chunk_failure_iff (env : Env) (info : sparse_storage)
    (blk blkcnt : Nat) (rest rest2 : List (Nat × Nat)) (hpos : 0 < blkcnt) :
    ((fb_mtd_sparse_write env info blk blkcnt).1 = 0 ↔
       env.writeRet (blk * info.blksz % 2 ^ 32) (blkcnt * info.blksz) ≠ 0) ∧
    (env.writeRet (blk * info.blksz % 2 ^ 32) (blkcnt * info.blksz) = 0 →
       (fb_mtd_sparse_write env info blk blkcnt).1 = blkcnt) ∧
    ((fb_mtd_sparse_write env info blk blkcnt).1 = 0 →
       write_sparse_image env info ((blk, blkcnt) :: rest) =
         write_sparse_image env info ((blk, blkcnt) :: rest2)) := by
  have hpos' : blkcnt ≠ 0 := Nat.pos_iff_ne_zero.mp hpos
  refine ⟨?_, ?_, ?_⟩
  · unfold fb_mtd_sparse_write
    by_cases hw : env.writeRet (blk * info.blksz % 4294967296) (blkcnt * info.blksz) = 0 <;>
      simp [hw, hpos']
  · intro hw
    have hw2 : env.writeRet (blk * info.blksz % 4294967296) (blkcnt * info.blksz) = 0 := hw
    unfold fb_mtd_sparse_write
    simp [hw2]
  · intro h0
    unfold write_sparse_image
    simp [h0]

/-- Witness for C5 in an environment whose program primitive always fails:
the callback returns 0 for the chunk and the transfer aborts identically
whatever chunks would have followed. -/
def envC5 : Env :=
  ⟨.error (-19), .error (-19), fun _ _ => 0, fun _ _ => -5, true, [(0, 1)]⟩

def infoC5 : sparse_storage := ⟨2048, 0, 2048⟩

theorem sparse_chunk_failure_iff_witness :
    ((fb_mtd_sparse_write envC5 infoC5 0 1).1 = 0 ↔
       envC5.writeRet (0 * infoC5.blksz % 2 ^ 32) (1 * infoC5.blksz) ≠ 0) ∧
    (envC5.writeRet (0 * infoC5.blksz % 2 ^ 32) (1 * infoC5.blksz) = 0 →
       (fb_mtd_sparse_write envC5 infoC5 0 1).1 = 1) ∧
    ((fb_mtd_sparse_write envC5 infoC5 0 1).1 = 0 →
       write_sparse_image envC5 infoC5 [(0, 1), (7, 3)] =
         write_sparse_image envC5 infoC5 [(0, 1), (9, 9)]) :=
  sparse_chunk_failure_iff envC5 infoC5 0 1 [(7, 3)] [(9, 9)] (by decide)

/-- C6 counterexample: the claim "the program operation is issued at byte
offset exactly `i * blockSize`" fails, because the C code narrows the
offset to `u32`.  On a region of `2^33` bytes with write granularity
2048, chunk index `2^21` is addressable (`2^21 < totalSize /
writeGranularity = 2^22`), `i * blockSize = 2^32`, yet the issued program
offset is 0. -/
def mtdBig : mtd_info := ⟨"big", 8589934592, 2048, 131072⟩

def envC6 : Env :=
  ⟨.ok mtdBig, .error (-19), fun _ _ => 0, fun _ _ => 0, true, [(2097152, 1)]⟩

theorem sparse_offset_truncation_cex :
    2097152 < (sparseStorageOf mtdBig).size ∧
    2097152 * (sparseStorageOf mtdBig).blksz = 2 ^ 32 ∧
    (fb_mtd_sparse_write envC6 (sparseStorageOf mtdBig) 2097152 1).2 =
      [.writeOp 0 2048] ∧
    Event.writeOp (2 ^ 32) 2048 ∉
      fastboot_spi_flash_write envC6 (some "big") 0 := by
  refine ⟨by decide, by decide, by rfl, ?_⟩
  have h : fastboot_spi_flash_write envC6 (some "big") 0 =
      [.probe, .lookup (some "big"), .writeOp 0 2048, .okayResp, .put] := by rfl
  rw [h]
  decide

/-- C6 (amended): in the sparse path the driver is configured with block
size `writeGranularity` and chunk count `totalSize / writeGranularity`,
and a chunk write issues one program call of exactly `n * blockSize`
bytes at offset `(i * blockSize) mod 2^32` — which equals `i * blockSize`
whenever that product fits in 32 bits. -/
theorem sparse_chunk_addressing (env : Env) (mtd : mtd_info)
    (blk blkcnt : Nat) :
    sparseStorageOf mtd =
      ⟨mtd.writesize, 0, mtd.size / mtd.writesize⟩ ∧
    (fb_mtd_sparse_write env (sparseStorageOf mtd) blk blkcnt).2 =
      [.writeOp (blk * mtd.writesize % 2 ^ 32) (blkcnt * mtd.writesize)] ∧
    (blk * mtd.writesize < 2 ^ 32 →
      (fb_mtd_sparse_write env (sparseStorageOf mtd) blk blkcnt).2 =
        [.writeOp (blk * mtd.writesize) (blkcnt * mtd.writesize)]) := by
  refine ⟨rfl, ?_, ?_⟩
  · simp only [fb_mtd_sparse_write, sparseStorageOf]
    split <;> rfl
  · intro hlt
    simp only [fb_mtd_sparse_write, sparseStorageOf]
    rw [Nat.mod_eq_of_lt hlt]
    split <;> rfl

/-- Witness for C6 (amended) at an in-range chunk: index 3, count 2,
write granularity 2048 — one program call of 4096 bytes at offset 6144. -/
theorem sparse_chunk_addressing_witness :
    (fb_mtd_sparse_write envC6 (sparseStorageOf mtdBig) 3 2).2 =
      [.writeOp (3 * mtdBig.writesize % 2 ^ 32) (2 * mtdBig.writesize)] ∧
    (fb_mtd_sparse_write envC6 (sparseStorageOf mtdBig) 3 2).2 =
      [.writeOp (3 * mtdBig.writesize) (2 * mtdBig.writesize)] :=
  ⟨(sparse_chunk_addressing envC6 mtdBig 3 2).2.1,
   (sparse_chunk_addressing envC6 mtdBig 3 2).2.2 (by decide)⟩

/-- C7: on a raw write whose pre-write erase succeeds, the erase length is
clamped to `totalSize` but the subsequent program call is issued at offset
0 with the full requested length — for every length, including lengths
exceeding `totalSize` (no clamp on the write). -/
theorem raw_write_length_not_clamped (env : Env) (name : Option String)
    (L : Nat) (mtd : mtd_info)
    (hres : (get_mtd_device_by_name env name).1 = .ok mtd)
    (hsp : env.sparse = false)
    (he : env.eraseRet 0 (rawEraseLen mtd.erasesize mtd.size L) = 0) :
    rawEraseLen mtd.erasesize mtd.size L ≤ mtd.size ∧
    Event.eraseOp 0 (rawEraseLen mtd.erasesize mtd.size L) ∈
      fastboot_spi_flash_write env name L ∧
    Event.writeOp 0 L ∈ fastboot_spi_flash_write env name L := by
  refine ⟨?_, ?_, ?_⟩
  · simp only [rawEraseLen]
    split <;> split <;> omega
  all_goals
    by_cases hw : env.writeRet 0 L = 0
  · rw [write_eq_raw_success env name L mtd hres hsp he hw]
    simp
  · rw [write_eq_raw_writefail env name L mtd hres hsp he hw]
    simp
  · rw [write_eq_raw_success env name L mtd hres hsp he hw]
    simp
  · rw [write_eq_raw_writefail env name L mtd hres hsp he hw]
    simp

/-- Witness for C7: on a 4 MiB region, a raw write of 4 MiB + 100 bytes
erases only the clamped 4 MiB yet issues the program call for the full
4194404 bytes. -/
def envC7 : Env :=
  ⟨.ok mtdW, .error (-19), fun _ _ => 0, fun _ _ => 0, false, []⟩

theorem raw_write_length_not_clamped_witness :
    mtdW.size < 4194404 ∧
    rawEraseLen mtdW.erasesize mtdW.size 4194404 ≤ mtdW.size ∧
    Event.eraseOp 0 (rawEraseLen mtdW.erasesize mtdW.size 4194404) ∈
      fastboot_spi_flash_write envC7 (some "part") 4194404 ∧
    Event.writeOp 0 4194404 ∈ fastboot_spi_flash_write envC7 (some "part") 4194404 :=
  ⟨by decide,
   raw_write_length_not_clamped envC7 (some "part") 4194404 mtdW
     (by rfl) (by rfl) (by decide)⟩

/-- C8: the erase operation reports "partition not found" on resolver
failure; on success it issues exactly one erase, over offset 0 and the
full region size, releases the handle, and only then reports "failed
erasing mtd device" if the erase primitive failed and success otherwise. -/
theorem erase_operation_spec (env : Env) (name : Option String) :
    (∀ ret, (get_mtd_device_by_name env name).1 = .error ret →
       fastboot_spi_flash_erase env name =
         (get_mtd_device_by_name env name).2 ++
           [.failResp "partition not found"]) ∧
    (∀ mtd, (get_mtd_device_by_name env name).1 = .ok mtd →
       fastboot_spi_flash_erase env name =
         (get_mtd_device_by_name env name).2 ++ [.eraseOp 0 mtd.size, .put] ++
           (if env.eraseRet 0 mtd.size ≠ 0 then
              [.failResp "failed erasing mtd device"]
            else [.okayResp])) :=
  ⟨fun ret h => erase_eq_err env name ret h,
   fun mtd h => erase_eq_ok env name mtd h⟩

/-- Witness for C8 in an environment where the resolver succeeds and the
erase primitive succeeds: a single whole-region erase, then the release,
then the success report. -/
theorem erase_operation_spec_witness :
    fastboot_spi_flash_erase envC7 (some "part") =
      [.probe, .lookup (some "part"), .eraseOp 0 4194304, .put, .okayResp] := by
  have h := (erase_operation_spec envC7 (some "part")).2 mtdW (by rfl)
  rw [h]
  rfl

lemma sparse_no_failResp (env : Env) (info : sparse_storage)
    (chunks : List (Nat × Nat)) (msg : String)
    (hmsg : msg ≠ "sparse write failed") :
    Event.failResp msg ∉ write_sparse_image env info chunks := by
  induction chunks with
  | nil => simp [write_sparse_image]
  | cons c rest ih =>
    obtain ⟨blk, blkcnt⟩ := c
    unfold write_sparse_image fb_mtd_sparse_write
    by_cases hw : env.writeRet (blk * info.blksz % 4294967296) (blkcnt * info.blksz) = 0 <;>
      by_cases hb : blkcnt = 0 <;>
      simp [hw, hb, ih, hmsg]

/-- C10: unlike `get_part_info`, the erase and write operations have no
empty-name guard: for a missing or empty name they still probe and look
the name up first, never emit "partition not given", and when the
resolver fails they emit "partition not found". -/
theorem erase_write_no_empty_guard (env : Env) (L : Nat) (name : Option String)
    (_hname : name = none ∨ name = some "") :
    (fastboot_spi_flash_erase env name).take 2 = [.probe, .lookup name] ∧
    (fastboot_spi_flash_write env name L).take 2 = [.probe, .lookup name] ∧
    Event.failResp "partition not given" ∉ fastboot_spi_flash_erase env name ∧
    Event.failResp "partition not given" ∉ fastboot_spi_flash_write env name L ∧
    (resolveOk env = false →
       Event.failResp "partition not found" ∈ fastboot_spi_flash_erase env name ∧
       Event.failResp "partition not found" ∈ fastboot_spi_flash_write env name L) := by
  have htake : ∀ tr : List Event, (tr = [.probe, .lookup name] ∨
      tr = [.probe, .lookup name, .probe, .lookup name]) →
      ∀ rest : List Event, (tr ++ rest).take 2 = [.probe, .lookup name] := by
    rintro tr (h | h) rest <;> subst h <;> rfl
  rcases resolver_dichotomy env name with ⟨hok, mtd, h⟩ | ⟨hbad, ret, h⟩
  · refine ⟨?_, ?_, ?_, ?_, ?_⟩
    · rw [erase_eq_ok env name mtd h, List.append_assoc]
      exact htake _ (resolver_trace_shape env name) _
    · by_cases hsp : env.sparse
      · rw [write_eq_ok_sparse env name L mtd h hsp, List.append_assoc]
        exact htake _ (resolver_trace_shape env name) _
      · rw [Bool.not_eq_true] at hsp
        by_cases he : env.eraseRet 0 (rawEraseLen mtd.erasesize mtd.size L) = 0
        · by_cases hw : env.writeRet 0 L = 0
          · rw [write_eq_raw_success env name L mtd h hsp he hw]
            exact htake _ (resolver_trace_shape env name) _
          · rw [write_eq_raw_writefail env name L mtd h hsp he hw]
            exact htake _ (resolver_trace_shape env name) _
        · rw [write_eq_raw_erasefail env name L mtd h hsp he]
          exact htake _ (resolver_trace_shape env name) _
    · rw [erase_eq_ok env name mtd h]
      rcases resolver_trace_shape env name with h2 | h2 <;> rw [h2] <;>
        split <;> simp
    · by_cases hsp : env.sparse
      · rw [write_eq_ok_sparse env name L mtd h hsp]
        rcases resolver_trace_shape env name with h2 | h2 <;> rw [h2] <;>
          simp <;>
          exact sparse_no_failResp env (sparseStorageOf mtd) env.chunks
            "partition not given" (by decide)
      · rw [Bool.not_eq_true] at hsp
        by_cases he : env.eraseRet 0 (rawEraseLen mtd.erasesize mtd.size L) = 0
        · by_cases hw : env.writeRet 0 L = 0
          · rw [write_eq_raw_success env name L mtd h hsp he hw]
            rcases resolver_trace_shape env name with h2 | h2 <;> rw [h2] <;> simp
          · rw [write_eq_raw_writefail env name L mtd h hsp he hw]
            rcases resolver_trace_shape env name with h2 | h2 <;> rw [h2] <;> simp
        · rw [write_eq_raw_erasefail env name L mtd h hsp he]
          rcases resolver_trace_shape env name with h2 | h2 <;> rw [h2] <;> simp
    · intro hres
      rw [hres] at hok
      exact absurd hok (by simp)
  · refine ⟨?_, ?_, ?_, ?_, ?_⟩
    · rw [erase_eq_err env name ret h]
      exact htake _ (resolver_trace_shape env name) _
    · rw [write_eq_err env name L ret h]
      exact htake _ (resolver_trace_shape env name) _
    · rw [erase_eq_err env name ret h]
      rcases resolver_trace_shape env name with h2 | h2 <;> rw [h2] <;> simp
    · rw [write_eq_err env name L ret h]
      rcases resolver_trace_shape env name with h2 | h2 <;> rw [h2] <;> simp
    · intro _
      constructor
      · rw [erase_eq_err env name ret h]
        simp
      · rw [write_eq_err env name L ret h]
        simp

/-- Witness for C10: with the empty name and a resolver that fails both
lookups, erase and write still probe and look up first and report
"partition not found". -/
theorem erase_write_no_empty_guard_witness :
    (fastboot_spi_flash_erase envC4 (some "")).take 2 =
      [.probe, .lookup (some "")] ∧
    Event.failResp "partition not found" ∈
      fastboot_spi_flash_erase envC4 (some "") ∧
    Event.failResp "partition not found" ∈
      fastboot_spi_flash_write envC4 (some "") 5 := by
  have h := erase_write_no_empty_guard envC4 5 (some "") (Or.inr rfl)
  exact ⟨h.1, (h.2.2.2.2 rfl).1, (h.2.2.2.2 rfl).2⟩
